import Mathlib

/-!
Verification of the snowflake-util repository (a 64-bit snowflake ID codec)
against its natural-language specification.

The Python source (src/snowflake/config.py and src/snowflake/snowflake.py) is
shallowly embedded below.  Binary strings produced by Python's
`bin(x)[2:].zfill(n)` and f-string interpolation are modelled as lists over the
alphabet `PyChar`, which contains exactly the characters that can occur in
those strings: the binary digits `'0'`/`'1'`, the `'b'` that survives
`bin(x)[2:]` when `x` is negative, and the four letters of the text `"None"`
that an f-string inserts when interpolating Python's `None`.  Decimal strings
(snowflake wire form) are modelled as lists of decimal digits `Fin 10`.
Python exceptions are modelled by `PyError` and a result monad `PyResult`.
-/

namespace SnowflakeUtil

/-- A Python exception, by class and message. -/
inductive PyError where
  | valueError (msg : String)
  | assertionError (msg : String)
  | typeError (msg : String)
deriving DecidableEq

/-- Result of running a fragment of Python code: a value or a raised exception. -/
inductive PyResult (α : Type) where
  | ok (a : α)
  | error (e : PyError)
deriving DecidableEq

/-- The characters that can occur in the "binary strings" built by the code:
binary digits, the `'b'` left behind by `bin(x)[2:]` on negative `x`, and the
letters of `"None"` inserted by f-string interpolation of `None`. -/
inductive PyChar where
  | c0 | c1 | cb | cN | co | cn | ce
deriving DecidableEq

/-- Numeric value of a binary digit character (non-digits count as 0; they are
rejected by `int2` before any value is used). -/
def bitv : PyChar → Nat
  | .c1 => 1
  | _ => 0

/-- Whether a character is a binary digit. -/
def is01 : PyChar → Bool
  | .c0 => true
  | .c1 => true
  | _ => false

/-- Value of a binary digit string, most significant bit first. -/
def binVal (l : List PyChar) : Nat :=
  l.foldl (fun a c => 2 * a + bitv c) 0

/-- Python `int(s, 2)`: value of a non-empty all-binary string, else `ValueError`. -/
def int2 (l : List PyChar) : PyResult Nat :=
  if l ≠ [] ∧ l.all is01 then .ok (binVal l)
  else .error (.valueError "invalid literal for int() with base 2")

/-- Python `bin(n)[2:]` for a natural number: minimal binary rendering, MSB
first; `bin(0)[2:] = "0"`. -/
def bits (n : Nat) : List PyChar :=
  if n < 2 then [if n = 1 then .c1 else .c0]
  else bits (n / 2) ++ [if n % 2 = 1 then .c1 else .c0]
termination_by n
decreasing_by exact Nat.div_lt_self (by omega) (by omega)

/-- Python `bin(i)[2:]` for an arbitrary integer: for negative `i` the slice
`[2:]` of `-0b...` keeps the `'b'`. -/
def pyBin (i : Int) : List PyChar :=
  if i < 0 then .cb :: bits (-i).toNat else bits i.toNat

/-- Python `str.zfill(k)`: left-pad with `'0'` to length `k` (never truncates). -/
def zfill (k : Nat) (l : List PyChar) : List PyChar :=
  List.replicate (k - l.length) .c0 ++ l

/-- Python slice `s[a:b]` (for `a ≤ b`; out-of-range bounds clip). -/
def pySlice (a b : Nat) (l : List PyChar) : List PyChar :=
  List.take (b - a) (List.drop a l)

/-- Python `str(n)` for a natural number, as its list of decimal digits. -/
def decDigits (n : Nat) : List (Fin 10) :=
  if n < 10 then [⟨n % 10, Nat.mod_lt n (by omega)⟩]
  else decDigits (n / 10) ++ [⟨n % 10, Nat.mod_lt n (by omega)⟩]
termination_by n
decreasing_by exact Nat.div_lt_self (by omega) (by omega)

/-- Python `int(s)` of an all-digit string. -/
def decVal (l : List (Fin 10)) : Nat :=
  l.foldl (fun a d => 10 * a + d.val) 0

/-- Python `len(str(i))` for an integer (a minus sign counts one character). -/
def pyStrLenInt (i : Int) : Nat :=
  if i < 0 then (decDigits (-i).toNat).length + 1 else (decDigits i.toNat).length

/-- Python3 `round(n / 1000)` for natural `n`: nearest integer, ties to even. -/
def pyRound1000 (n : Nat) : Nat :=
  if n % 1000 < 500 then n / 1000
  else if 500 < n % 1000 then n / 1000 + 1
  else if (n / 1000) % 2 = 0 then n / 1000
  else n / 1000 + 1

/-- Modelled from the spec: the `Epoch` enumeration lives in
src/snowflake/enums.py, which is not present under src/; the three provider
epoch constants (milliseconds since the Unix epoch) are fixed by the spec's
external-interface section. -/
inductive Epoch where
  | discord | twitter | instagram
deriving DecidableEq

/-- Modelled from the spec: the millisecond value of each named epoch. -/
def Epoch.value : Epoch → Nat
  | .discord => 1420070400000
  | .twitter => 1288834974657
  | .instagram => 1314220021721

/-- The `epoch` argument of `SnowflakeConfig.__init__`: a named `Epoch` member
or a raw integer. -/
inductive EpochArg where
  | named (e : Epoch)
  | raw (n : Int)

/-- `SnowflakeConfig` (src/snowflake/config.py): the stored fields after a
successful `__init__`.  `param2_length` keeps the optional `None`. -/
structure SnowflakeConfig where
  epoch : Nat
  leading_bit : Bool
  timestamp_length : Nat
  param1_length : Nat
  param2_length : Option Nat
  sequence_length : Nat
deriving DecidableEq

/-- `SnowflakeConfig.__init__` (config.py lines 71-84): validate the epoch
(`ValueError` for a raw integer that is negative or longer than 13 digits),
then assert that the widths plus the leading bit sum to exactly 64
(`param2_length or 0` treats `None` as 0). -/
def SnowflakeConfig.make (epoch : EpochArg) (leading_bit : Bool)
    (timestamp_length param1_length : Nat) (param2_length : Option Nat)
    (sequence_length : Nat) : PyResult SnowflakeConfig :=
  let epochVal : PyResult Nat :=
    match epoch with
    | .named e => .ok e.value
    | .raw n =>
      if pyStrLenInt n ≤ 13 ∧ 0 ≤ n then .ok n.toNat
      else .error (.valueError "Must be a snowlake.Epoch or a valid Unix timestamp in milliseconds with maximum length of 13 digits.")
  match epochVal with
  | .error e => .error e
  | .ok ev =>
    if (if leading_bit then 1 else 0) + timestamp_length + param1_length
        + param2_length.getD 0 + sequence_length = 64 then
      .ok ⟨ev, leading_bit, timestamp_length, param1_length, param2_length, sequence_length⟩
    else
      .error (.assertionError "Sum of leading_bit, timestamp_length, param1_length, param2_length, sequence_length must be exactly 64.")

/-- Whether the `epoch` argument passes the epoch validation of `__init__`. -/
def epochOk : EpochArg → Bool
  | .named _ => true
  | .raw n => decide (pyStrLenInt n ≤ 13 ∧ 0 ≤ n)

/-- The value `(leading_bit ? 1 : 0) + timestamp_length + param1_length +
(param2_length or 0) + sequence_length` of a stored configuration. -/
def configSum (cfg : SnowflakeConfig) : Nat :=
  (if cfg.leading_bit then 1 else 0) + cfg.timestamp_length + cfg.param1_length
    + cfg.param2_length.getD 0 + cfg.sequence_length

/-- Result of `Snowflake.parse_snowflake`: a 3-tuple when no param2 field is
configured, a 4-tuple otherwise.  The date is the decoded Unix timestamp in
seconds (the argument `datetime.fromtimestamp` receives). -/
inductive Parsed where
  | three (date : Nat) (param1 : Nat) (sequence : Nat)
  | four (date : Nat) (param1 : Nat) (param2 : Nat) (sequence : Nat)
deriving DecidableEq

/-- `Snowflake.generate_snowflake` (snowflake.py lines 384-447).  `t_ms` is the
already-rounded `round(date.timestamp() * 1000)` in milliseconds.  The steps,
in source order: the param2-presence check (which evaluates `None > 0` and so
raises `TypeError` when `param2_length` is `None` and no param2 was passed),
the two range asserts against `10 **` width, the before-epoch check, the
`zfill(None)` `TypeError` when a param2 value is supplied but `param2_length`
is `None`, the f-string concatenation (which renders a missing param2 as the
text `"None"`), the 64-length assert, and `str(int(s, 2))`. -/
def generate_snowflake (cfg : SnowflakeConfig) (param1 sequence : Int)
    (t_ms : Int) (param2 : Option Int) : PyResult (List (Fin 10)) :=
  if param2 = none ∧ cfg.param2_length = none then
    .error (.typeError "comparison not supported between instances of NoneType and int")
  else if param2 = none ∧ 0 < cfg.param2_length.getD 0 then
    .error (.typeError "Required param2 is not provided.")
  else if ¬ (0 ≤ param1 ∧ param1 < (10 : Int) ^ cfg.param1_length) then
    .error (.assertionError "Param1 must be between 0 and (10**(config.param1_length) - 1)")
  else if ¬ (0 ≤ sequence ∧ sequence < (10 : Int) ^ cfg.sequence_length) then
    .error (.assertionError "Sequence must be between 0 and (10**(config.sequence_length) - 1)")
  else if t_ms - (cfg.epoch : Int) < 0 then
    .error (.valueError "Provided date is before the epoch.")
  else if param2 ≠ none ∧ cfg.param2_length = none then
    .error (.typeError "zfill argument must be an int, not NoneType")
  else
    let delta := (t_ms - (cfg.epoch : Int)).toNat
    let binary_dt := zfill cfg.timestamp_length (bits delta)
    let binary_param1 := zfill cfg.param1_length (pyBin param1)
    let binary_param2 : List PyChar :=
      match param2 with
      | none => [.cN, .co, .cn, .ce]
      | some v => zfill (cfg.param2_length.getD 0) (pyBin v)
    let binary_sequence := zfill cfg.sequence_length (pyBin sequence)
    let binary_string :=
      (if cfg.leading_bit then [PyChar.c0] else []) ++ binary_dt ++ binary_param1
        ++ binary_param2 ++ binary_sequence
    if binary_string.length = 64 then
      match int2 binary_string with
      | .ok v => .ok (decDigits v)
      | .error e => .error e
    else .error (.assertionError "Binary string length is incorrect.")

/-- `Snowflake.parse_snowflake` (snowflake.py lines 449-501).  The input is the
decimal digit string.  Note the slices start at bit 0 regardless of
`leading_bit`, and the sequence slice on line 488 adds `param2_length` before
the `param2_length > 0` test, so a `None` width raises `TypeError` there. -/
def parse_snowflake (cfg : SnowflakeConfig) (snowflake : List (Fin 10)) :
    PyResult Parsed :=
  if ¬ (17 ≤ snowflake.length ∧ snowflake.length ≤ 19) then
    .error (.assertionError "Snowflake must be a valid snowflake within 17-19 digits.")
  else
    let v := decVal snowflake
    let binary_snowflake := zfill 64 (bits v)
    let binary_timestamp := List.take cfg.timestamp_length binary_snowflake
    let binary_param1 :=
      pySlice cfg.timestamp_length (cfg.timestamp_length + cfg.param1_length)
        binary_snowflake
    match cfg.param2_length with
    | none => .error (.typeError "unsupported operand types for + : int and NoneType")
    | some p2len =>
      let binary_sequence :=
        List.drop (cfg.timestamp_length + cfg.param1_length + p2len) binary_snowflake
      let binary_param2 : Option (List PyChar) :=
        if 0 < p2len then
          some (pySlice (cfg.timestamp_length + cfg.param1_length)
            (cfg.timestamp_length + cfg.param1_length + p2len) binary_snowflake)
        else none
      match int2 binary_timestamp with
      | .error e => .error e
      | .ok tsv =>
        match int2 binary_param1 with
        | .error e => .error e
        | .ok p1v =>
          match binary_param2 with
          | none =>
            match int2 binary_sequence with
            | .error e => .error e
            | .ok seqv => .ok (.three (pyRound1000 (tsv + cfg.epoch)) p1v seqv)
          | some bp2 =>
            match int2 bp2 with
            | .error e => .error e
            | .ok p2v =>
              match int2 binary_sequence with
              | .error e => .error e
              | .ok seqv => .ok (.four (pyRound1000 (tsv + cfg.epoch)) p1v p2v seqv)

/-- `Snowflake.generate_discord_snowflake` (snowflake.py lines 119-165): fixed
widths 42+5+5+12, Discord epoch, and no 64-length assertion. -/
def generate_discord_snowflake (worker process sequence : Int) (t_ms : Int) :
    PyResult (List (Fin 10)) :=
  if ¬ (0 ≤ worker ∧ worker < 32) then
    .error (.assertionError "Worker must be between 0 and 31.")
  else if ¬ (0 ≤ process ∧ process < 32) then
    .error (.assertionError "Process must be between 0 and 31.")
  else if ¬ (0 ≤ sequence ∧ sequence < 4096) then
    .error (.assertionError "Sequence must be between 0 and 4095.")
  else if t_ms - (Epoch.discord.value : Int) < 0 then
    .error (.valueError "Provided date is before the Discord epoch.")
  else
    let delta := (t_ms - (Epoch.discord.value : Int)).toNat
    let binary_string :=
      zfill 42 (bits delta) ++ zfill 5 (pyBin worker) ++ zfill 5 (pyBin process)
        ++ zfill 12 (pyBin sequence)
    match int2 binary_string with
    | .ok v => .ok (decDigits v)
    | .error e => .error e

/-- `Snowflake.parse_discord_snowflake` (snowflake.py lines 167-210): slices
`[:42]`, `[42:47]`, `[47:52]`, `[52:]` of the 64-bit rendering; returns
`(date, worker, process, sequence)` with the date in seconds. -/
def parse_discord_snowflake (snowflake : List (Fin 10)) :
    PyResult (Nat × Nat × Nat × Nat) :=
  if ¬ (17 ≤ snowflake.length ∧ snowflake.length ≤ 19) then
    .error (.assertionError "Snowflake must be a valid Discord snowflake within 17-19 digits.")
  else
    let v := decVal snowflake
    let b := zfill 64 (bits v)
    match int2 (List.take 42 b) with
    | .error e => .error e
    | .ok tsv =>
      match int2 (pySlice 42 47 b) with
      | .error e => .error e
      | .ok w =>
        match int2 (pySlice 47 52 b) with
        | .error e => .error e
        | .ok p =>
          match int2 (List.drop 52 b) with
          | .error e => .error e
          | .ok sq => .ok (pyRound1000 (tsv + Epoch.discord.value), w, p, sq)

/-- The 64-bit value whose fields are `delta`, `p1v`, `p2v`, `sv` under a
configuration (param2 width read as `param2_length or 0`). -/
def packedVal (cfg : SnowflakeConfig) (delta p1v p2v sv : Nat) : Nat :=
  delta * 2 ^ (cfg.param1_length + cfg.param2_length.getD 0 + cfg.sequence_length)
    + p1v * 2 ^ (cfg.param2_length.getD 0 + cfg.sequence_length)
    + p2v * 2 ^ cfg.sequence_length
    + sv

/-- Follows the spec's words for the decode algorithm: with a leading bit
configured, the timestamp field is the slice starting after the leading bit,
i.e. bits 1 .. timestamp_length of the 64-bit rendering. -/
def spec_timestamp_field (cfg : SnowflakeConfig) (snowflake : List (Fin 10)) : Nat :=
  binVal (pySlice 1 (1 + cfg.timestamp_length) (zfill 64 (bits (decVal snowflake))))

/-! ### Values of binary strings -/

theorem binVal_nil : binVal [] = 0 := rfl

theorem foldl_binstep (l : List PyChar) (x : Nat) :
    List.foldl (fun a c => 2 * a + bitv c) x l
      = x * 2 ^ l.length + List.foldl (fun a c => 2 * a + bitv c) 0 l := by
  induction l generalizing x with
  | nil => simp
  | cons c t ih =>
    simp only [List.foldl_cons, List.length_cons]
    rw [ih (2 * x + bitv c), ih (2 * 0 + bitv c)]
    ring

theorem binVal_cons (c : PyChar) (t : List PyChar) :
    binVal (c :: t) = bitv c * 2 ^ t.length + binVal t := by
  unfold binVal
  simp only [List.foldl_cons]
  rw [foldl_binstep]
  ring_nf

theorem binVal_append (a b : List PyChar) :
    binVal (a ++ b) = binVal a * 2 ^ b.length + binVal b := by
  unfold binVal
  rw [List.foldl_append, foldl_binstep]

theorem binVal_replicate_c0 (m : Nat) : binVal (List.replicate m .c0) = 0 := by
  induction m with
  | zero => rfl
  | succ m ih => rw [List.replicate_succ, binVal_cons]; simp [bitv, ih]

theorem binVal_zfill (k : Nat) (l : List PyChar) : binVal (zfill k l) = binVal l := by
  unfold zfill
  rw [binVal_append, binVal_replicate_c0]
  ring

theorem length_zfill (k : Nat) (l : List PyChar) :
    (zfill k l).length = max k l.length := by
  unfold zfill
  simp [List.length_append, List.length_replicate]
  omega

theorem length_zfill_of_le {k : Nat} {l : List PyChar} (h : l.length ≤ k) :
    (zfill k l).length = k := by
  rw [length_zfill]; omega

theorem binVal_lt (l : List PyChar) : binVal l < 2 ^ l.length := by
  induction l with
  | nil => simp [binVal_nil]
  | cons c t ih =>
    rw [binVal_cons]
    have hb : bitv c ≤ 1 := by cases c <;> simp [bitv]
    have : bitv c * 2 ^ t.length ≤ 2 ^ t.length := by
      calc bitv c * 2 ^ t.length ≤ 1 * 2 ^ t.length := Nat.mul_le_mul_right _ hb
      _ = 2 ^ t.length := by ring
    simp only [List.length_cons, pow_succ]
    omega

/-! ### Properties of `bits` (Python `bin(n)[2:]`) -/

theorem bits_low (n : Nat) (h : n < 2) :
    bits n = [if n = 1 then PyChar.c1 else PyChar.c0] := by
  rw [bits]; simp [h]

theorem bits_high (n : Nat) (h : 2 ≤ n) :
    bits n = bits (n / 2) ++ [if n % 2 = 1 then PyChar.c1 else PyChar.c0] := by
  conv_lhs => rw [bits]
  simp [Nat.not_lt.mpr h]

theorem binVal_bits (n : Nat) : binVal (bits n) = n := by
  induction n using Nat.strong_induction_on with
  | _ n ih =>
    by_cases h : n < 2
    · rw [bits_low n h]
      interval_cases n <;> rfl
    · push_neg at h
      rw [bits_high n h, binVal_append]
      have hrec := ih (n / 2) (Nat.div_lt_self (by omega) (by omega))
      rcases Nat.even_or_odd n with he | ho
      · have h2 : n % 2 = 0 := Nat.even_iff.mp he
        simp [h2, hrec, binVal_cons, bitv, binVal_nil]
        omega
      · have h2 : n % 2 = 1 := Nat.odd_iff.mp ho
        simp [h2, hrec, binVal_cons, bitv, binVal_nil]
        omega

theorem bits_length (n : Nat) : (bits n).length = n.log2 + 1 := by
  induction n using Nat.strong_induction_on with
  | _ n ih =>
    by_cases h : n < 2
    · rw [bits_low n h]
      interval_cases n <;> rw [Nat.log2] <;> simp
    · push_neg at h
      rw [bits_high n h]
      have hrec := ih (n / 2) (Nat.div_lt_self (by omega) (by omega))
      have hl : n.log2 = (n / 2).log2 + 1 := by
        rw [Nat.log2]
        simp [h]
      simp [List.length_append, hrec, hl]

theorem bits_length_le {n k : Nat} (hk : 0 < k) (h : n < 2 ^ k) :
    (bits n).length ≤ k := by
  rw [bits_length]
  rcases Nat.eq_zero_or_pos n with h0 | h0
  · subst h0
    rw [Nat.log2]
    simpa using hk
  · have := (Nat.log2_lt (by omega)).mpr h
    omega

theorem bits_length_gt {n k : Nat} (h : 2 ^ k ≤ n) : k < (bits n).length := by
  rw [bits_length]
  have hn : n ≠ 0 := by
    have : 0 < 2 ^ k := Nat.pos_pow_of_pos k (by omega)
    omega
  by_contra hc
  push_neg at hc
  have : n.log2 < k := by omega
  have := (Nat.log2_lt hn).mp this
  omega

theorem bits_all01 (n : Nat) : (bits n).all is01 = true := by
  induction n using Nat.strong_induction_on with
  | _ n ih =>
    by_cases h : n < 2
    · rw [bits_low n h]
      split <;> rfl
    · push_neg at h
      rw [bits_high n h]
      have hrec := ih (n / 2) (Nat.div_lt_self (by omega) (by omega))
      simp only [List.all_append, hrec, Bool.true_and]
      split <;> rfl

theorem zfill_all01 {k : Nat} {l : List PyChar} (h : l.all is01 = true) :
    (zfill k l).all is01 = true := by
  unfold zfill
  simp only [List.all_append, h, Bool.and_true]
  induction (k - l.length) with
  | zero => rfl
  | succ m ih => rw [List.replicate_succ]; simp [is01, ih]

theorem append_all01 {a b : List PyChar} (ha : a.all is01 = true)
    (hb : b.all is01 = true) : (a ++ b).all is01 = true := by
  simp [List.all_append, ha, hb]

theorem int2_of_all01 {l : List PyChar} (hne : l ≠ []) (h01 : l.all is01 = true) :
    int2 l = .ok (binVal l) := by
  unfold int2
  simp [hne, h01]

theorem int2_error_msg {l : List PyChar} {e : PyError} (h : int2 l = .error e) :
    e = .valueError "invalid literal for int() with base 2" := by
  unfold int2 at h
  split at h
  · exact absurd h (by simp)
  · simpa using h.symm

theorem binVal_split (l : List PyChar) (m : Nat) :
    binVal l = binVal (l.take m) * 2 ^ (l.length - m) + binVal (l.drop m) := by
  conv_lhs => rw [← List.take_append_drop m l]
  rw [binVal_append, List.length_drop]

theorem binVal_drop_lt (l : List PyChar) (m : Nat) :
    binVal (l.drop m) < 2 ^ (l.length - m) := by
  have := binVal_lt (l.drop m)
  rwa [List.length_drop] at this

theorem binVal_take (l : List PyChar) (m : Nat) :
    binVal (l.take m) = binVal l / 2 ^ (l.length - m) := by
  conv_rhs => rw [binVal_split l m]
  rw [Nat.mul_comm, Nat.mul_add_div (by positivity),
    Nat.div_eq_of_lt (binVal_drop_lt l m)]
  omega

theorem binVal_drop (l : List PyChar) (m : Nat) :
    binVal (l.drop m) = binVal l % 2 ^ (l.length - m) := by
  conv_rhs => rw [binVal_split l m]
  rw [Nat.mul_comm, Nat.mul_add_mod, Nat.mod_eq_of_lt (binVal_drop_lt l m)]

theorem take_all01 {l : List PyChar} (m : Nat) (h : l.all is01 = true) :
    (l.take m).all is01 = true := by
  rw [List.all_eq_true] at h ⊢
  exact fun c hc => h c (List.take_subset m l hc)

theorem drop_all01 {l : List PyChar} (m : Nat) (h : l.all is01 = true) :
    (l.drop m).all is01 = true := by
  rw [List.all_eq_true] at h ⊢
  exact fun c hc => h c (List.drop_subset m l hc)

/-! ### Decimal digit strings -/

theorem foldl_decstep (l : List (Fin 10)) (x : Nat) :
    List.foldl (fun a d => 10 * a + d.val) x l
      = x * 10 ^ l.length + List.foldl (fun a d => 10 * a + d.val) 0 l := by
  induction l generalizing x with
  | nil => simp
  | cons c t ih =>
    simp only [List.foldl_cons, List.length_cons]
    rw [ih (10 * x + c.val), ih (10 * 0 + c.val)]
    ring

theorem decVal_cons (d : Fin 10) (t : List (Fin 10)) :
    decVal (d :: t) = d.val * 10 ^ t.length + decVal t := by
  unfold decVal
  simp only [List.foldl_cons]
  rw [foldl_decstep]
  ring_nf

theorem decVal_append (a b : List (Fin 10)) :
    decVal (a ++ b) = decVal a * 10 ^ b.length + decVal b := by
  unfold decVal
  rw [List.foldl_append, foldl_decstep]

theorem decVal_lt (l : List (Fin 10)) : decVal l < 10 ^ l.length := by
  induction l with
  | nil => simp [decVal]
  | cons d t ih =>
    rw [decVal_cons]
    have hd : d.val ≤ 9 := by omega
    have : d.val * 10 ^ t.length ≤ 9 * 10 ^ t.length := Nat.mul_le_mul_right _ hd
    simp only [List.length_cons, pow_succ]
    omega

theorem decDigits_low (n : Nat) (h : n < 10) :
    decDigits n = [⟨n % 10, Nat.mod_lt n (by omega)⟩] := by
  rw [decDigits]; simp [h]

theorem decDigits_high (n : Nat) (h : 10 ≤ n) :
    decDigits n = decDigits (n / 10) ++ [⟨n % 10, Nat.mod_lt n (by omega)⟩] := by
  conv_lhs => rw [decDigits]
  simp [Nat.not_lt.mpr h]

theorem decVal_decDigits (n : Nat) : decVal (decDigits n) = n := by
  induction n using Nat.strong_induction_on with
  | _ n ih =>
    by_cases h : n < 10
    · rw [decDigits_low n h, decVal_cons]
      simp [decVal, Nat.mod_eq_of_lt h]
    · push_neg at h
      rw [decDigits_high n h, decVal_append]
      have hrec := ih (n / 10) (Nat.div_lt_self (by omega) (by omega))
      rw [hrec]
      simp [decVal]
      omega

theorem decDigits_ne_nil (n : Nat) : decDigits n ≠ [] := by
  by_cases h : n < 10
  · rw [decDigits_low n h]; simp
  · rw [decDigits_high n (by omega)]; simp

theorem decDigits_length_le {n k : Nat} (hk : 0 < k) (h : n < 10 ^ k) :
    (decDigits n).length ≤ k := by
  induction n using Nat.strong_induction_on generalizing k with
  | _ n ih =>
    by_cases hn : n < 10
    · rw [decDigits_low n hn]; simpa using hk
    · push_neg at hn
      rw [decDigits_high n hn]
      have hk2 : 2 ≤ k := by
        by_contra hc
        push_neg at hc
        interval_cases k
        all_goals omega
      have hdiv : n / 10 < 10 ^ (k - 1) := by
        have h10 : 10 * 10 ^ (k - 1) = 10 ^ k := by
          rw [← pow_succ']
          congr 1
          omega
        exact Nat.div_lt_of_lt_mul (by omega)
      have := ih (n / 10) (Nat.div_lt_self (by omega) (by omega)) (k := k - 1) (by omega) hdiv
      simp only [List.length_append, List.length_cons, List.length_nil]
      omega

theorem decDigits_length_gt {n k : Nat} (h : 10 ^ k ≤ n) :
    k < (decDigits n).length := by
  induction n using Nat.strong_induction_on generalizing k with
  | _ n ih =>
    rcases Nat.eq_zero_or_pos k with hk | hk
    · subst hk
      have := decDigits_ne_nil n
      have : 0 < (decDigits n).length := List.length_pos.mpr this
      omega
    · have hn : 10 ≤ n := by
        calc 10 = 10 ^ 1 := by ring
        _ ≤ 10 ^ k := Nat.pow_le_pow_right (by omega) hk
        _ ≤ n := h
      rw [decDigits_high n hn]
      have hdiv : 10 ^ (k - 1) ≤ n / 10 := by
        rw [Nat.le_div_iff_mul_le (by omega)]
        calc 10 ^ (k - 1) * 10 = 10 ^ k := by
              rw [← pow_succ]
              congr 1
              omega
        _ ≤ n := h
      have := ih (n / 10) (Nat.div_lt_self (by omega) (by omega)) (k := k - 1) hdiv
      simp only [List.length_append, List.length_cons, List.length_nil]
      omega

/-! ### Arithmetic helpers for packed fields -/

theorem pack_lt {a b m n : Nat} (ha : a < 2 ^ m) (hb : b < 2 ^ n) :
    a * 2 ^ n + b < 2 ^ (m + n) := by
  calc a * 2 ^ n + b < a * 2 ^ n + 2 ^ n := by omega
  _ = (a + 1) * 2 ^ n := by ring
  _ ≤ 2 ^ m * 2 ^ n := Nat.mul_le_mul_right _ (by omega)
  _ = 2 ^ (m + n) := by rw [pow_add]

theorem mul_pow_add_div {a b n : Nat} (hb : b < 2 ^ n) :
    (a * 2 ^ n + b) / 2 ^ n = a := by
  rw [Nat.mul_comm, Nat.mul_add_div (by positivity), Nat.div_eq_of_lt hb]
  omega

theorem mul_pow_add_mod (a b n : Nat) : (a * 2 ^ n + b) % 2 ^ n = b % 2 ^ n := by
  rw [Nat.mul_comm]
  exact Nat.mul_add_mod (2 ^ n) a b

/-- `round(n / 1000)` is within half a second of `n` milliseconds. -/
theorem pyRound1000_close (n : Nat) :
    n ≤ pyRound1000 n * 1000 + 500 ∧ pyRound1000 n * 1000 ≤ n + 500 := by
  unfold pyRound1000
  have h1 := Nat.div_add_mod n 1000
  have h2 : n % 1000 < 1000 := Nat.mod_lt n (by omega)
  split_ifs <;> omega

/-! ### Evaluation lemmas for the codec operations -/

theorem pyBin_natCast (n : Nat) : pyBin (n : Int) = bits n := by
  unfold pyBin
  simp

theorem length_zfill_bits {n w : Nat} (hw : 0 < w) (h : n < 2 ^ w) :
    (zfill w (bits n)).length = w :=
  length_zfill_of_le (bits_length_le hw h)

theorem binVal_zfill_bits (w n : Nat) : binVal (zfill w (bits n)) = n := by
  rw [binVal_zfill, binVal_bits]

theorem zfill_bits_all01 (w n : Nat) : (zfill w (bits n)).all is01 = true :=
  zfill_all01 (bits_all01 n)

theorem generate_ok (cfg : SnowflakeConfig) (k : Nat) (hp2 : cfg.param2_length = some k)
    (hts : 0 < cfg.timestamp_length) (hp1 : 0 < cfg.param1_length) (hk : 0 < k)
    (hsq : 0 < cfg.sequence_length) (hsum : configSum cfg = 64)
    (delta p1v p2v sv : Nat)
    (hd : delta < 2 ^ cfg.timestamp_length) (h1 : p1v < 2 ^ cfg.param1_length)
    (h2 : p2v < 2 ^ k) (h3 : sv < 2 ^ cfg.sequence_length) :
    generate_snowflake cfg p1v sv ((delta + cfg.epoch : Nat) : Int) (some p2v)
      = .ok (decDigits (packedVal cfg delta p1v p2v sv)) := by
  have hI1 : ((p1v : Nat) : Int) < (10 : Int) ^ cfg.param1_length := by
    have hle : (2 : Nat) ^ cfg.param1_length ≤ 10 ^ cfg.param1_length :=
      Nat.pow_le_pow_left (by omega) _
    exact_mod_cast lt_of_lt_of_le h1 hle
  have hI2 : ((sv : Nat) : Int) < (10 : Int) ^ cfg.sequence_length := by
    have hle : (2 : Nat) ^ cfg.sequence_length ≤ 10 ^ cfg.sequence_length :=
      Nat.pow_le_pow_left (by omega) _
    exact_mod_cast lt_of_lt_of_le h3 hle
  have hI3 : ¬ (((delta + cfg.epoch : Nat) : Int) - (cfg.epoch : Int) < 0) := by
    push_cast
    omega
  have hdelta : (((delta + cfg.epoch : Nat) : Int) - (cfg.epoch : Int)).toNat = delta := by
    push_cast
    omega
  simp only [generate_snowflake, hp2, hI3, hdelta, pyBin_natCast, Option.getD_some]
  rw [if_neg (by simp), if_neg (by simp), if_neg (by simp [hI1]), if_neg (by simp [hI2]),
    if_neg (by simp), if_neg (by simp)]
  have hlenA : (zfill cfg.timestamp_length (bits delta)).length = cfg.timestamp_length :=
    length_zfill_bits hts hd
  have hlenB : (zfill cfg.param1_length (bits p1v)).length = cfg.param1_length :=
    length_zfill_bits hp1 h1
  have hlenC : (zfill k (bits p2v)).length = k := length_zfill_bits hk h2
  have hlenD : (zfill cfg.sequence_length (bits sv)).length = cfg.sequence_length :=
    length_zfill_bits hsq h3
  have hsum2 := hsum
  unfold configSum at hsum2
  rw [hp2] at hsum2
  simp only [Option.getD_some] at hsum2
  have hlen : ((if cfg.leading_bit = true then [PyChar.c0] else []) ++
      zfill cfg.timestamp_length (bits delta) ++ zfill cfg.param1_length (bits p1v) ++
      zfill k (bits p2v) ++ zfill cfg.sequence_length (bits sv)).length = 64 := by
    simp only [List.length_append, hlenA, hlenB, hlenC, hlenD]
    cases hlb : cfg.leading_bit
    · rw [hlb] at hsum2
      simp at hsum2 ⊢
      omega
    · rw [hlb] at hsum2
      simp at hsum2 ⊢
      omega
  rw [if_pos hlen]
  have h01 : ((if cfg.leading_bit = true then [PyChar.c0] else []) ++
      zfill cfg.timestamp_length (bits delta) ++ zfill cfg.param1_length (bits p1v) ++
      zfill k (bits p2v) ++ zfill cfg.sequence_length (bits sv)).all is01 = true := by
    refine append_all01 (append_all01 (append_all01 (append_all01 ?_ ?_) ?_) ?_) ?_
    · cases cfg.leading_bit <;> simp [is01]
    · exact zfill_bits_all01 _ _
    · exact zfill_bits_all01 _ _
    · exact zfill_bits_all01 _ _
    · exact zfill_bits_all01 _ _
  have hne : ((if cfg.leading_bit = true then [PyChar.c0] else []) ++
      zfill cfg.timestamp_length (bits delta) ++ zfill cfg.param1_length (bits p1v) ++
      zfill k (bits p2v) ++ zfill cfg.sequence_length (bits sv)) ≠ [] := by
    intro hnil
    rw [hnil] at hlen
    simp at hlen
  rw [int2_of_all01 hne h01]
  have hval : binVal ((if cfg.leading_bit = true then [PyChar.c0] else []) ++
      zfill cfg.timestamp_length (bits delta) ++ zfill cfg.param1_length (bits p1v) ++
      zfill k (bits p2v) ++ zfill cfg.sequence_length (bits sv))
      = packedVal cfg delta p1v p2v sv := by
    rw [binVal_append, binVal_append, binVal_append, binVal_append]
    rw [hlenA, hlenB, hlenC, hlenD]
    rw [binVal_zfill_bits, binVal_zfill_bits, binVal_zfill_bits, binVal_zfill_bits]
    have hL : binVal (if cfg.leading_bit = true then [PyChar.c0] else []) = 0 := by
      cases cfg.leading_bit <;> simp [binVal, bitv]
    rw [hL]
    unfold packedVal
    rw [hp2]
    simp only [Option.getD_some]
    ring
  rw [hval]

theorem parse_eval (cfg : SnowflakeConfig) (k : Nat) (s : List (Fin 10))
    (hp2 : cfg.param2_length = some k) (hk : 0 < k)
    (hts : 0 < cfg.timestamp_length) (hp1 : 0 < cfg.param1_length)
    (hlt : cfg.timestamp_length + cfg.param1_length + k < 64)
    (hl1 : 17 ≤ s.length) (hl2 : s.length ≤ 19) :
    parse_snowflake cfg s = .ok (.four
      (pyRound1000 (decVal s / 2 ^ (64 - cfg.timestamp_length) + cfg.epoch))
      (decVal s % 2 ^ (64 - cfg.timestamp_length)
        / 2 ^ (64 - cfg.timestamp_length - cfg.param1_length))
      (decVal s % 2 ^ (64 - cfg.timestamp_length - cfg.param1_length)
        / 2 ^ (64 - cfg.timestamp_length - cfg.param1_length - k))
      (decVal s % 2 ^ (64 - cfg.timestamp_length - cfg.param1_length - k))) := by
  have hv64 : decVal s < 2 ^ 64 := by
    have hb1 : decVal s < 10 ^ s.length := decVal_lt s
    have hb2 : (10 : Nat) ^ s.length ≤ 10 ^ 19 := Nat.pow_le_pow_right (by omega) hl2
    have hb3 : (10 : Nat) ^ 19 < 2 ^ 64 := by norm_num
    omega
  have hlenB : (zfill 64 (bits (decVal s))).length = 64 :=
    length_zfill_bits (by omega) hv64
  have h01B : (zfill 64 (bits (decVal s))).all is01 = true := zfill_bits_all01 _ _
  have hvalB : binVal (zfill 64 (bits (decVal s))) = decVal s := binVal_zfill_bits _ _
  have hlenDrop : ∀ m : Nat, ((zfill 64 (bits (decVal s))).drop m).length = 64 - m := by
    intro m
    rw [List.length_drop, hlenB]
  -- timestamp slice
  have e1 : int2 (List.take cfg.timestamp_length (zfill 64 (bits (decVal s))))
      = .ok (decVal s / 2 ^ (64 - cfg.timestamp_length)) := by
    have hne : List.take cfg.timestamp_length (zfill 64 (bits (decVal s))) ≠ [] := by
      rw [← List.length_pos, List.length_take, hlenB]
      omega
    rw [int2_of_all01 hne (take_all01 _ h01B), binVal_take, hvalB, hlenB]
  -- param1 slice
  have e2 : int2 (pySlice cfg.timestamp_length
        (cfg.timestamp_length + cfg.param1_length) (zfill 64 (bits (decVal s))))
      = .ok (decVal s % 2 ^ (64 - cfg.timestamp_length)
          / 2 ^ (64 - cfg.timestamp_length - cfg.param1_length)) := by
    unfold pySlice
    have hne : List.take (cfg.timestamp_length + cfg.param1_length - cfg.timestamp_length)
        (List.drop cfg.timestamp_length (zfill 64 (bits (decVal s)))) ≠ [] := by
      rw [← List.length_pos, List.length_take, hlenDrop]
      omega
    rw [int2_of_all01 hne (take_all01 _ (drop_all01 _ h01B)), binVal_take, binVal_drop,
      hvalB, hlenB, hlenDrop]
    simp [Nat.add_sub_cancel_left, Nat.sub_sub]
  -- param2 slice
  have e3 : int2 (pySlice (cfg.timestamp_length + cfg.param1_length)
        (cfg.timestamp_length + cfg.param1_length + k) (zfill 64 (bits (decVal s))))
      = .ok (decVal s % 2 ^ (64 - cfg.timestamp_length - cfg.param1_length)
          / 2 ^ (64 - cfg.timestamp_length - cfg.param1_length - k)) := by
    unfold pySlice
    have hne : List.take (cfg.timestamp_length + cfg.param1_length + k
          - (cfg.timestamp_length + cfg.param1_length))
        (List.drop (cfg.timestamp_length + cfg.param1_length)
          (zfill 64 (bits (decVal s)))) ≠ [] := by
      rw [← List.length_pos, List.length_take, hlenDrop]
      omega
    rw [int2_of_all01 hne (take_all01 _ (drop_all01 _ h01B)), binVal_take, binVal_drop,
      hvalB, hlenB, hlenDrop]
    simp [Nat.add_sub_cancel_left, Nat.sub_sub]
  -- sequence slice
  have e4 : int2 (List.drop (cfg.timestamp_length + cfg.param1_length + k)
        (zfill 64 (bits (decVal s))))
      = .ok (decVal s % 2 ^ (64 - cfg.timestamp_length - cfg.param1_length - k)) := by
    have hne : List.drop (cfg.timestamp_length + cfg.param1_length + k)
        (zfill 64 (bits (decVal s))) ≠ [] := by
      rw [← List.length_pos, hlenDrop]
      omega
    rw [int2_of_all01 hne (drop_all01 _ h01B), binVal_drop, hvalB, hlenB]
    simp [Nat.sub_sub]
  simp only [parse_snowflake, hp2]
  rw [if_neg (by omega), if_pos hk]
  simp only [e1, e2, e3, e4]

theorem generate_discord_eval (w p sq delta : Nat) (hw : w < 32) (hp : p < 32)
    (hs : sq < 4096) :
    generate_discord_snowflake w p sq ((delta + Epoch.discord.value : Nat) : Int)
      = .ok (decDigits (delta * 2 ^ 22 + w * 2 ^ 17 + p * 2 ^ 12 + sq)) := by
  have hIw : ((w : Nat) : Int) < 32 := by exact_mod_cast hw
  have hIp : ((p : Nat) : Int) < 32 := by exact_mod_cast hp
  have hIs : ((sq : Nat) : Int) < 4096 := by exact_mod_cast hs
  have hI3 : ¬ (((delta + Epoch.discord.value : Nat) : Int) - (Epoch.discord.value : Int) < 0) := by
    push_cast
    omega
  have hdelta : (((delta + Epoch.discord.value : Nat) : Int)
      - (Epoch.discord.value : Int)).toNat = delta := by
    push_cast
    omega
  simp only [generate_discord_snowflake, hI3, hdelta, pyBin_natCast]
  rw [if_neg (by simp [hIw]), if_neg (by simp [hIp]), if_neg (by simp [hIs]),
    if_neg (by simp)]
  have hlenB : (zfill 5 (bits w)).length = 5 := length_zfill_bits (by omega) (by omega)
  have hlenC : (zfill 5 (bits p)).length = 5 := length_zfill_bits (by omega) (by omega)
  have hlenD : (zfill 12 (bits sq)).length = 12 := length_zfill_bits (by omega) (by omega)
  have hne : (zfill 42 (bits delta) ++ zfill 5 (bits w) ++ zfill 5 (bits p)
      ++ zfill 12 (bits sq)) ≠ [] := by
    intro hnil
    have := congrArg List.length hnil
    rw [List.length_append, List.length_append, List.length_append,
      hlenB, hlenC, hlenD] at this
    simp at this
  have h01 : (zfill 42 (bits delta) ++ zfill 5 (bits w) ++ zfill 5 (bits p)
      ++ zfill 12 (bits sq)).all is01 = true := by
    refine append_all01 (append_all01 (append_all01 ?_ ?_) ?_) ?_ <;>
      exact zfill_bits_all01 _ _
  rw [int2_of_all01 hne h01]
  have hval : binVal (zfill 42 (bits delta) ++ zfill 5 (bits w) ++ zfill 5 (bits p)
      ++ zfill 12 (bits sq)) = delta * 2 ^ 22 + w * 2 ^ 17 + p * 2 ^ 12 + sq := by
    rw [binVal_append, binVal_append, binVal_append, hlenB, hlenC, hlenD,
      binVal_zfill_bits, binVal_zfill_bits, binVal_zfill_bits, binVal_zfill_bits]
    ring
  rw [hval]

theorem generate_overflow (cfg : SnowflakeConfig) (k : Nat)
    (hp2 : cfg.param2_length = some k) (hsum : configSum cfg = 64)
    (delta p1v p2v sv : Nat)
    (h1 : p1v < 2 ^ cfg.param1_length) (h3 : sv < 2 ^ cfg.sequence_length)
    (hd : 2 ^ cfg.timestamp_length ≤ delta) :
    generate_snowflake cfg p1v sv ((delta + cfg.epoch : Nat) : Int) (some p2v)
      = .error (.assertionError "Binary string length is incorrect.") := by
  have hI1 : ((p1v : Nat) : Int) < (10 : Int) ^ cfg.param1_length := by
    have hle : (2 : Nat) ^ cfg.param1_length ≤ 10 ^ cfg.param1_length :=
      Nat.pow_le_pow_left (by omega) _
    exact_mod_cast lt_of_lt_of_le h1 hle
  have hI2 : ((sv : Nat) : Int) < (10 : Int) ^ cfg.sequence_length := by
    have hle : (2 : Nat) ^ cfg.sequence_length ≤ 10 ^ cfg.sequence_length :=
      Nat.pow_le_pow_left (by omega) _
    exact_mod_cast lt_of_lt_of_le h3 hle
  have hI3 : ¬ (((delta + cfg.epoch : Nat) : Int) - (cfg.epoch : Int) < 0) := by
    push_cast
    omega
  have hdelta : (((delta + cfg.epoch : Nat) : Int) - (cfg.epoch : Int)).toNat = delta := by
    push_cast
    omega
  simp only [generate_snowflake, hp2, hI3, hdelta, pyBin_natCast, Option.getD_some]
  rw [if_neg (by simp), if_neg (by simp), if_neg (by simp [hI1]), if_neg (by simp [hI2]),
    if_neg (by simp), if_neg (by simp)]
  have hlenA : cfg.timestamp_length < (zfill cfg.timestamp_length (bits delta)).length := by
    rw [length_zfill]
    have := bits_length_gt hd
    omega
  have hlen : ¬ ((if cfg.leading_bit = true then [PyChar.c0] else []) ++
      zfill cfg.timestamp_length (bits delta) ++ zfill cfg.param1_length (bits p1v) ++
      zfill k (bits p2v) ++ zfill cfg.sequence_length (bits sv)).length = 64 := by
    simp only [List.length_append]
    have hB : cfg.param1_length ≤ (zfill cfg.param1_length (bits p1v)).length := by
      rw [length_zfill]; omega
    have hC : k ≤ (zfill k (bits p2v)).length := by
      rw [length_zfill]; omega
    have hD : cfg.sequence_length ≤ (zfill cfg.sequence_length (bits sv)).length := by
      rw [length_zfill]; omega
    have hsum2 := hsum
    unfold configSum at hsum2
    rw [hp2] at hsum2
    simp only [Option.getD_some] at hsum2
    cases hlb : cfg.leading_bit
    · rw [hlb] at hsum2
      simp at hsum2 ⊢
      omega
    · rw [hlb] at hsum2
      simp at hsum2 ⊢
      omega
  rw [if_neg hlen]

theorem generate_tail_ne_valueError (big : List PyChar) :
    (if big.length = 64 then
       (match int2 big with
        | PyResult.ok v => PyResult.ok (decDigits v)
        | PyResult.error e => PyResult.error e)
     else PyResult.error (PyError.assertionError "Binary string length is incorrect."))
      ≠ PyResult.error (PyError.valueError "Provided date is before the epoch.") := by
  split
  · rcases hq : int2 big with v | e
    · simp
    · rw [int2_error_msg hq]
      decide
  · simp

theorem generate_beforeEpoch_iff (cfg : SnowflakeConfig) (k : Nat)
    (hp2 : cfg.param2_length = some k) (p1v p2v sv : Nat)
    (h1 : p1v < 2 ^ cfg.param1_length) (h3 : sv < 2 ^ cfg.sequence_length) (t : Int) :
    generate_snowflake cfg p1v sv t (some p2v)
        = .error (.valueError "Provided date is before the epoch.")
      ↔ t < (cfg.epoch : Int) := by
  have hI1 : ((p1v : Nat) : Int) < (10 : Int) ^ cfg.param1_length := by
    have hle : (2 : Nat) ^ cfg.param1_length ≤ 10 ^ cfg.param1_length :=
      Nat.pow_le_pow_left (by omega) _
    exact_mod_cast lt_of_lt_of_le h1 hle
  have hI2 : ((sv : Nat) : Int) < (10 : Int) ^ cfg.sequence_length := by
    have hle : (2 : Nat) ^ cfg.sequence_length ≤ 10 ^ cfg.sequence_length :=
      Nat.pow_le_pow_left (by omega) _
    exact_mod_cast lt_of_lt_of_le h3 hle
  simp only [generate_snowflake, hp2, Option.getD_some]
  rw [if_neg (by simp), if_neg (by simp), if_neg (by simp [hI1]), if_neg (by simp [hI2])]
  constructor
  · intro h
    by_contra hc
    push_neg at hc
    rw [if_neg (by omega), if_neg (by simp)] at h
    exact absurd h (generate_tail_ne_valueError _)
  · intro h
    rw [if_pos (by omega)]

/-! ### Concrete configurations used in the claim theorems -/

/-- The library default configuration (snowflake.py lines 72-79):
Discord epoch, no leading bit, widths 42+5+5+12. -/
def defaultDiscordConfig : SnowflakeConfig :=
  ⟨Epoch.discord.value, false, 42, 5, some 5, 12⟩

/-- A generic configuration with epoch 0 and the default field widths. -/
def cfgEpoch0 : SnowflakeConfig := ⟨0, false, 42, 5, some 5, 12⟩

/-- A configuration that reserves a leading zero bit (1+41+5+5+12 = 64). -/
def cfgLead : SnowflakeConfig := ⟨0, true, 41, 5, some 5, 12⟩

/-- A configuration whose param2 field has width 0 (42+10+0+12 = 64). -/
def cfgP2Zero : SnowflakeConfig := ⟨0, false, 42, 10, some 0, 12⟩

/-- A configuration constructed with `param2_length = None` (42+10+12 = 64). -/
def cfgP2None : SnowflakeConfig := ⟨0, false, 42, 10, none, 12⟩

/-! ### Claim theorems -/

/-- C1 (amended): for a configuration with no leading bit, a configured param2
field, positive field widths, fields inside their `2^width` ranges, a delta
that fits the timestamp width, and a packed value whose decimal rendering has
17-19 digits, `parse_snowflake (generate_snowflake ...)` recovers param1,
param2 and sequence exactly and the timestamp to within one second.  (The
unamended claim fails: snowflakes below `10^16` are rejected by the decode
length guard, leading-bit configurations decode misaligned fields, and
zero-width-param2 configurations cannot generate at all.) -/
theorem C1_roundtrip (cfg : SnowflakeConfig) (k : Nat)
    (hp2 : cfg.param2_length = some k) (hlb : cfg.leading_bit = false)
    (hts : 0 < cfg.timestamp_length) (hp1 : 0 < cfg.param1_length) (hk : 0 < k)
    (hsq : 0 < cfg.sequence_length) (hsum : configSum cfg = 64)
    (delta p1v p2v sv : Nat)
    (hd : delta < 2 ^ cfg.timestamp_length) (h1 : p1v < 2 ^ cfg.param1_length)
    (h2 : p2v < 2 ^ k) (h3 : sv < 2 ^ cfg.sequence_length)
    (hlo : 10 ^ 16 ≤ packedVal cfg delta p1v p2v sv)
    (hhi : packedVal cfg delta p1v p2v sv < 10 ^ 19) :
    generate_snowflake cfg p1v sv ((delta + cfg.epoch : Nat) : Int) (some p2v)
        = .ok (decDigits (packedVal cfg delta p1v p2v sv))
    ∧ parse_snowflake cfg (decDigits (packedVal cfg delta p1v p2v sv))
        = .ok (.four (pyRound1000 (delta + cfg.epoch)) p1v p2v sv)
    ∧ pyRound1000 (delta + cfg.epoch) * 1000 ≤ delta + cfg.epoch + 1000
    ∧ delta + cfg.epoch ≤ pyRound1000 (delta + cfg.epoch) * 1000 + 1000 := by
  have hsum' : cfg.timestamp_length + cfg.param1_length + k + cfg.sequence_length = 64 := by
    unfold configSum at hsum
    rw [hp2, hlb] at hsum
    simp at hsum
    omega
  refine ⟨generate_ok cfg k hp2 hts hp1 hk hsq hsum delta p1v p2v sv hd h1 h2 h3,
    ?_, ?_, ?_⟩
  · have hl1 : 17 ≤ (decDigits (packedVal cfg delta p1v p2v sv)).length := by
      have := decDigits_length_gt (n := packedVal cfg delta p1v p2v sv) (k := 16) hlo
      omega
    have hl2 : (decDigits (packedVal cfg delta p1v p2v sv)).length ≤ 19 :=
      decDigits_length_le (by omega) hhi
    have hpe := parse_eval cfg k (decDigits (packedVal cfg delta p1v p2v sv))
      hp2 hk hts hp1 (by omega) hl1 hl2
    rw [decVal_decDigits] at hpe
    have e1 : 64 - cfg.timestamp_length
        = cfg.param1_length + (k + cfg.sequence_length) := by omega
    have e2 : 64 - cfg.timestamp_length - cfg.param1_length = k + cfg.sequence_length := by
      omega
    have e3 : 64 - cfg.timestamp_length - cfg.param1_length - k = cfg.sequence_length := by
      omega
    rw [e3, e2, e1] at hpe
    have hval1 : packedVal cfg delta p1v p2v sv
        = delta * 2 ^ (cfg.param1_length + (k + cfg.sequence_length))
          + (p1v * 2 ^ (k + cfg.sequence_length)
            + (p2v * 2 ^ cfg.sequence_length + sv)) := by
      unfold packedVal
      rw [hp2]
      simp only [Option.getD_some]
      ring
    have hval2 : packedVal cfg delta p1v p2v sv
        = (delta * 2 ^ cfg.param1_length + p1v) * 2 ^ (k + cfg.sequence_length)
          + (p2v * 2 ^ cfg.sequence_length + sv) := by
      unfold packedVal
      rw [hp2]
      simp only [Option.getD_some]
      ring
    have hval3 : packedVal cfg delta p1v p2v sv
        = (delta * 2 ^ (cfg.param1_length + k) + p1v * 2 ^ k + p2v)
            * 2 ^ cfg.sequence_length + sv := by
      unfold packedVal
      rw [hp2]
      simp only [Option.getD_some]
      ring
    have hR2 : p2v * 2 ^ cfg.sequence_length + sv < 2 ^ (k + cfg.sequence_length) :=
      pack_lt h2 h3
    have hR1 : p1v * 2 ^ (k + cfg.sequence_length)
        + (p2v * 2 ^ cfg.sequence_length + sv)
        < 2 ^ (cfg.param1_length + (k + cfg.sequence_length)) := pack_lt h1 hR2
    have hA : packedVal cfg delta p1v p2v sv
        / 2 ^ (cfg.param1_length + (k + cfg.sequence_length)) = delta := by
      rw [hval1]
      exact mul_pow_add_div hR1
    have hB : packedVal cfg delta p1v p2v sv
        % 2 ^ (cfg.param1_length + (k + cfg.sequence_length))
        / 2 ^ (k + cfg.sequence_length) = p1v := by
      rw [hval1, mul_pow_add_mod, Nat.mod_eq_of_lt hR1]
      exact mul_pow_add_div hR2
    have hC : packedVal cfg delta p1v p2v sv % 2 ^ (k + cfg.sequence_length)
        / 2 ^ cfg.sequence_length = p2v := by
      rw [hval2, mul_pow_add_mod, Nat.mod_eq_of_lt hR2]
      exact mul_pow_add_div h3
    have hD : packedVal cfg delta p1v p2v sv % 2 ^ cfg.sequence_length = sv := by
      rw [hval3, mul_pow_add_mod, Nat.mod_eq_of_lt h3]
    rw [hA, hB, hC, hD] at hpe
    exact hpe
  · have hr := pyRound1000_close (delta + cfg.epoch)
    omega
  · have hr := pyRound1000_close (delta + cfg.epoch)
    omega

/-- C1 witness: the round-trip theorem applied at a concrete configuration and
field tuple (delta = 2^41, param1 = 1, param2 = 2, sequence = 3; the packed
value 2^63 + 139267 has 19 decimal digits). -/
theorem C1_roundtrip_witness :
    generate_snowflake cfgEpoch0 1 3 ((2 ^ 41 + cfgEpoch0.epoch : Nat) : Int) (some 2)
        = .ok (decDigits (packedVal cfgEpoch0 (2 ^ 41) 1 2 3))
    ∧ parse_snowflake cfgEpoch0 (decDigits (packedVal cfgEpoch0 (2 ^ 41) 1 2 3))
        = .ok (.four (pyRound1000 (2 ^ 41 + cfgEpoch0.epoch)) 1 2 3)
    ∧ pyRound1000 (2 ^ 41 + cfgEpoch0.epoch) * 1000 ≤ 2 ^ 41 + cfgEpoch0.epoch + 1000
    ∧ 2 ^ 41 + cfgEpoch0.epoch ≤ pyRound1000 (2 ^ 41 + cfgEpoch0.epoch) * 1000 + 1000 :=
  C1_roundtrip cfgEpoch0 5 rfl rfl (by norm_num [cfgEpoch0]) (by norm_num [cfgEpoch0])
    (by norm_num) (by norm_num [cfgEpoch0]) (by norm_num [configSum, cfgEpoch0])
    (2 ^ 41) 1 2 3 (by norm_num [cfgEpoch0]) (by norm_num [cfgEpoch0]) (by norm_num)
    (by norm_num [cfgEpoch0]) (by norm_num [packedVal, cfgEpoch0])
    (by norm_num [packedVal, cfgEpoch0])

/-- C1 counterexample: at the epoch instant with all fields 0 the generated
snowflake is the one-digit string "0", which `parse_snowflake` rejects with
the 17-19-digit length assertion instead of recovering the fields, so the
unamended round-trip claim is false. -/
theorem C1_roundtrip_counterexample :
    generate_snowflake cfgEpoch0 0 0 0 (some 0) = .ok (decDigits 0)
    ∧ parse_snowflake cfgEpoch0 (decDigits 0)
      = .error (.assertionError "Snowflake must be a valid snowflake within 17-19 digits.") := by
  constructor
  · have h := generate_ok cfgEpoch0 5 rfl (by norm_num [cfgEpoch0]) (by norm_num [cfgEpoch0])
      (by norm_num) (by norm_num [cfgEpoch0]) (by norm_num [configSum, cfgEpoch0])
      0 0 0 0 (by positivity) (by positivity) (by positivity) (by positivity)
    simpa [cfgEpoch0, packedVal] using h
  · have hd0 : decDigits 0 = [⟨0, by omega⟩] := decDigits_low 0 (by omega)
    rw [hd0]
    simp only [parse_snowflake]
    rw [if_pos (by simp)]

/-- C2 (code bug): the field-range asserts compare against `10 ** width`, not
`2 ** width`, and param2 is never range-checked at all.  With the default
widths, param1 = 32 (= 2^5) passes the field check and the call dies on the
internal "Binary string length is incorrect." assertion; param2 = 32 likewise;
a negative param2 reaches `int(s, 2)` and raises a ValueError.  None of these
is the field-range error the claim requires. -/
theorem C2_range_rejection_bug :
    generate_snowflake defaultDiscordConfig 32 0 1420070400000 (some 0)
      = .error (.assertionError "Binary string length is incorrect.")
    ∧ generate_snowflake defaultDiscordConfig 0 0 1420070400000 (some 32)
      = .error (.assertionError "Binary string length is incorrect.")
    ∧ generate_snowflake defaultDiscordConfig 0 0 1420070400000 (some (-1))
      = .error (.valueError "invalid literal for int() with base 2") := by
  refine ⟨?_, ?_, ?_⟩ <;>
    simp [generate_snowflake, defaultDiscordConfig, Epoch.value, bits, zfill, pyBin,
      int2, binVal, is01, bitv]

/-- C3 (code bug): with `param2_length = 0` the f-string interpolates the
missing param2 as the four characters "None" (and a supplied param2 still
contributes at least one unwanted character), so `generate_snowflake` always
fails the 64-length assertion instead of producing the concatenation without
param2 bits. -/
theorem C3_param2_zero_bug :
    generate_snowflake cfgP2Zero 0 0 0 none
      = .error (.assertionError "Binary string length is incorrect.")
    ∧ generate_snowflake cfgP2Zero 0 0 0 (some 0)
      = .error (.assertionError "Binary string length is incorrect.") := by
  constructor <;>
    simp [generate_snowflake, cfgP2Zero, bits, zfill, pyBin, int2, binVal, is01, bitv]

/-- C4 (code bug): on a leading-bit configuration `parse_snowflake` slices the
timestamp from bit 0 (`[:timestamp_length]`), not from bit 1 as the claim
states.  On the 17-digit input 10^16 under `cfgLead` the code decodes
timestamp-second 1192093 (and param1 = 16, param2 = 8, sequence = 0), whereas
the bit-1-based slice of the claim holds 2384185791 and would decode to
second 2384186. -/
theorem C4_leading_bit_slicing_bug :
    parse_snowflake cfgLead [1, 0, 0, 0, 0, 0, 0, 0, 0, 0, 0, 0, 0, 0, 0, 0, 0]
      = .ok (.four 1192093 16 8 0)
    ∧ spec_timestamp_field cfgLead [1, 0, 0, 0, 0, 0, 0, 0, 0, 0, 0, 0, 0, 0, 0, 0, 0]
      = 2384185791
    ∧ pyRound1000 (2384185791 + cfgLead.epoch) ≠ 1192093 := by
  have hv : decVal [1, 0, 0, 0, 0, 0, 0, 0, 0, 0, 0, 0, 0, 0, 0, 0, 0] = 10 ^ 16 := by
    norm_num [decVal]
  refine ⟨?_, ?_, ?_⟩
  · have h := parse_eval cfgLead 5 [1, 0, 0, 0, 0, 0, 0, 0, 0, 0, 0, 0, 0, 0, 0, 0, 0]
      rfl (by norm_num) (by norm_num [cfgLead]) (by norm_num [cfgLead])
      (by norm_num [cfgLead]) (by decide) (by decide)
    rw [hv] at h
    norm_num [cfgLead, pyRound1000] at h
    exact h
  · unfold spec_timestamp_field pySlice
    rw [hv]
    have hv64 : (10 : Nat) ^ 16 < 2 ^ 64 := by norm_num
    have hlenB : (zfill 64 (bits (10 ^ 16))).length = 64 := length_zfill_bits (by omega) hv64
    rw [binVal_take, binVal_drop, binVal_zfill_bits, hlenB, List.length_drop, hlenB]
    norm_num [cfgLead]
  · norm_num [pyRound1000, cfgLead]

/-- C5 (amended): a Discord snowflake generated at exactly the Discord epoch
instant with worker = process = sequence = 0 is the one-digit string "0", and
`parse_discord_snowflake` rejects it with the 17-19-digit length assertion, so
no fields are decoded at that instant. -/
theorem C5_discord_epoch_vector :
    generate_discord_snowflake 0 0 0 1420070400000 = .ok (decDigits 0)
    ∧ parse_discord_snowflake (decDigits 0)
      = .error (.assertionError "Snowflake must be a valid Discord snowflake within 17-19 digits.") := by
  constructor
  · have h := generate_discord_eval 0 0 0 0 (by omega) (by omega) (by omega)
    simpa [Epoch.value] using h
  · rw [decDigits_low 0 (by omega)]
    simp only [parse_discord_snowflake]
    rw [if_pos (by simp)]

/-- C5 counterexample: the snowflake generated at the Discord epoch with all
fields 0 does not decode to (epoch-second, 0, 0, 0); the parse call fails
before producing any tuple. -/
theorem C5_discord_epoch_vector_counterexample :
    generate_discord_snowflake 0 0 0 1420070400000 = .ok (decDigits 0)
    ∧ parse_discord_snowflake (decDigits 0) ≠ .ok (1420070400, 0, 0, 0) := by
  constructor
  · have h := generate_discord_eval 0 0 0 0 (by omega) (by omega) (by omega)
    simpa [Epoch.value] using h
  · rw [decDigits_low 0 (by omega)]
    simp only [parse_discord_snowflake]
    rw [if_pos (by simp)]
    simp

/-- C6: with a valid epoch argument, `SnowflakeConfig.__init__` succeeds
exactly when `(leading_bit ? 1 : 0) + timestamp_length + param1_length +
(param2_length or 0) + sequence_length = 64` (zero widths included), and every
configuration it returns satisfies the sum-to-64 invariant. -/
theorem C6_width_invariant (e : EpochArg) (lb : Bool) (ts p1 : Nat) (p2 : Option Nat)
    (sq : Nat) (he : epochOk e = true) :
    ((∃ cfg, SnowflakeConfig.make e lb ts p1 p2 sq = .ok cfg)
        ↔ (if lb then 1 else 0) + ts + p1 + p2.getD 0 + sq = 64)
      ∧ ∀ cfg, SnowflakeConfig.make e lb ts p1 p2 sq = .ok cfg → configSum cfg = 64 := by
  have main : ∀ ev : Nat,
      ((∃ cfg, (if (if lb then 1 else 0) + ts + p1 + p2.getD 0 + sq = 64 then
          PyResult.ok (⟨ev, lb, ts, p1, p2, sq⟩ : SnowflakeConfig)
        else PyResult.error (.assertionError "Sum of leading_bit, timestamp_length, param1_length, param2_length, sequence_length must be exactly 64.")) = .ok cfg)
          ↔ (if lb then 1 else 0) + ts + p1 + p2.getD 0 + sq = 64)
        ∧ ∀ cfg, (if (if lb then 1 else 0) + ts + p1 + p2.getD 0 + sq = 64 then
          PyResult.ok (⟨ev, lb, ts, p1, p2, sq⟩ : SnowflakeConfig)
        else PyResult.error (.assertionError "Sum of leading_bit, timestamp_length, param1_length, param2_length, sequence_length must be exactly 64.")) = .ok cfg → configSum cfg = 64 := by
    intro ev
    by_cases hs : (if lb then 1 else 0) + ts + p1 + p2.getD 0 + sq = 64
    · rw [if_pos hs]
      refine ⟨⟨fun _ => hs, fun _ => ⟨_, rfl⟩⟩, ?_⟩
      intro cfg hcfg
      have : (⟨ev, lb, ts, p1, p2, sq⟩ : SnowflakeConfig) = cfg := by
        simpa using hcfg
      rw [← this]
      unfold configSum
      exact hs
    · rw [if_neg hs]
      refine ⟨⟨?_, fun h => absurd h hs⟩, ?_⟩
      · rintro ⟨cfg, hcfg⟩
        simp at hcfg
      · intro cfg hcfg
        simp at hcfg
  cases e with
  | named ep =>
    simp only [SnowflakeConfig.make]
    exact main ep.value
  | raw n =>
    simp only [epochOk, decide_eq_true_eq] at he
    simp only [SnowflakeConfig.make]
    rw [if_pos he]
    exact main n.toNat

/-- C6 witness: the width-invariant theorem applied at the default Discord
layout (named epoch, sum 0+42+5+5+12 = 64). -/
theorem C6_width_invariant_witness :
    ((∃ cfg, SnowflakeConfig.make (.named .discord) false 42 5 (some 5) 12 = .ok cfg)
        ↔ (if false then 1 else 0) + 42 + 5 + (some 5).getD 0 + 12 = 64)
      ∧ ∀ cfg, SnowflakeConfig.make (.named .discord) false 42 5 (some 5) 12 = .ok cfg →
          configSum cfg = 64 :=
  C6_width_invariant (.named .discord) false 42 5 (some 5) 12 rfl

/-- C7 (amended): for a configuration whose param2 width is positive, with
param2 supplied and all fields inside their `2^width` ranges,
`generate_snowflake` raises the before-epoch ValueError exactly when the
timestamp is strictly earlier than the epoch, and succeeds at exactly the
epoch instant.  (The unamended claim fails for configurations with
`param2_length` 0 or None, which can never generate.) -/
theorem C7_epoch_guard (cfg : SnowflakeConfig) (k : Nat)
    (hp2 : cfg.param2_length = some k)
    (hts : 0 < cfg.timestamp_length) (hp1 : 0 < cfg.param1_length) (hk : 0 < k)
    (hsq : 0 < cfg.sequence_length) (hsum : configSum cfg = 64)
    (p1v p2v sv : Nat)
    (h1 : p1v < 2 ^ cfg.param1_length) (h2 : p2v < 2 ^ k)
    (h3 : sv < 2 ^ cfg.sequence_length) (t : Int) :
    (generate_snowflake cfg p1v sv t (some p2v)
        = .error (.valueError "Provided date is before the epoch.")
      ↔ t < (cfg.epoch : Int))
    ∧ generate_snowflake cfg p1v sv (cfg.epoch : Int) (some p2v)
        = .ok (decDigits (packedVal cfg 0 p1v p2v sv)) := by
  constructor
  · exact generate_beforeEpoch_iff cfg k hp2 p1v p2v sv h1 h3 t
  · have h := generate_ok cfg k hp2 hts hp1 hk hsq hsum 0 p1v p2v sv
      (by positivity) h1 h2 h3
    have harg : (((0 + cfg.epoch : Nat)) : Int) = (cfg.epoch : Int) := by norm_num
    rwa [harg] at h

/-- C7 witness: the epoch-guard theorem applied at `cfgEpoch0` with fields
(1, 2, 3) and the timestamp -5 ms (before the epoch 0). -/
theorem C7_epoch_guard_witness :
    (generate_snowflake cfgEpoch0 1 3 (-5) (some 2)
        = .error (.valueError "Provided date is before the epoch.")
      ↔ (-5 : Int) < (cfgEpoch0.epoch : Int))
    ∧ generate_snowflake cfgEpoch0 1 3 (cfgEpoch0.epoch : Int) (some 2)
        = .ok (decDigits (packedVal cfgEpoch0 0 1 2 3)) :=
  C7_epoch_guard cfgEpoch0 5 rfl (by norm_num [cfgEpoch0]) (by norm_num [cfgEpoch0])
    (by norm_num) (by norm_num [cfgEpoch0]) (by norm_num [configSum, cfgEpoch0])
    1 2 3 (by norm_num [cfgEpoch0]) (by norm_num) (by norm_num [cfgEpoch0]) (-5)

/-- C7 counterexample: under the zero-width-param2 configuration, at exactly
the epoch instant with in-range fields, `generate_snowflake` does not succeed;
it fails the internal 64-length assertion (the f-string renders the missing
param2 as "None"). -/
theorem C7_epoch_guard_counterexample :
    generate_snowflake cfgP2Zero 1 1 0 none
      = .error (.assertionError "Binary string length is incorrect.") := by
  simp [generate_snowflake, cfgP2Zero, bits, zfill, pyBin, int2, binVal, is01, bitv]

/-- C8: `parse_snowflake` fails with the malformed-snowflake assertion for
every digit-string input shorter than 17 or longer than 19 characters, and
never produces that length error for inputs of exactly 17 or exactly 19
digits. -/
theorem C8_length_guard (cfg : SnowflakeConfig) (s : List (Fin 10)) :
    ((s.length < 17 ∨ 19 < s.length) →
       parse_snowflake cfg s
         = .error (.assertionError "Snowflake must be a valid snowflake within 17-19 digits."))
    ∧ ((s.length = 17 ∨ s.length = 19) →
       parse_snowflake cfg s
         ≠ .error (.assertionError "Snowflake must be a valid snowflake within 17-19 digits.")) := by
  constructor
  · intro h
    simp only [parse_snowflake]
    rw [if_pos (by omega)]
  · intro h
    simp only [parse_snowflake]
    rw [if_neg (by omega)]
    rcases hp : cfg.param2_length with _ | k
    · simp only [hp]
      simp
    · simp only [hp]
      split
      · rename_i e heq
        rw [int2_error_msg heq]
        simp
      · split
        · rename_i e heq
          rw [int2_error_msg heq]
          simp
        · split
          · split
            · rename_i e heq
              rw [int2_error_msg heq]
              simp
            · simp
          · split
            · rename_i e heq
              rw [int2_error_msg heq]
              simp
            · split
              · rename_i e heq
                rw [int2_error_msg heq]
                simp
              · simp

/-- C8 witness: the length-guard theorem applied to the empty digit string
(rejected) and to a 17-digit string (not rejected by the length check). -/
theorem C8_length_guard_witness :
    parse_snowflake cfgEpoch0 []
      = .error (.assertionError "Snowflake must be a valid snowflake within 17-19 digits.")
    ∧ parse_snowflake cfgEpoch0 (List.replicate 17 0)
      ≠ .error (.assertionError "Snowflake must be a valid snowflake within 17-19 digits.") :=
  ⟨(C8_length_guard cfgEpoch0 []).1 (by simp),
    (C8_length_guard cfgEpoch0 (List.replicate 17 0)).2 (by simp)⟩

/-- C9 (amended): when the timestamp delta does not fit in `timestamp_length`
bits, `generate_snowflake` does not succeed and does not truncate; it fails
the internal 64-length assertion.  `generate_discord_snowflake`, which has no
such assertion, succeeds and returns a value of 2^64 or more (wider than 64
bits) - again without truncation.  (The unamended claim, which asserts silent
truncation to 64 bits, is false on both paths.) -/
theorem C9_overflow (cfg : SnowflakeConfig) (k : Nat)
    (hp2 : cfg.param2_length = some k) (hsum : configSum cfg = 64)
    (delta p1v p2v sv : Nat)
    (h1 : p1v < 2 ^ cfg.param1_length) (h3 : sv < 2 ^ cfg.sequence_length)
    (hd : 2 ^ cfg.timestamp_length ≤ delta) :
    generate_snowflake cfg p1v sv ((delta + cfg.epoch : Nat) : Int) (some p2v)
        = .error (.assertionError "Binary string length is incorrect.")
    ∧ ∀ w p sq d2 : Nat, w < 32 → p < 32 → sq < 4096 → 2 ^ 42 ≤ d2 →
        generate_discord_snowflake w p sq ((d2 + Epoch.discord.value : Nat) : Int)
          = .ok (decDigits (d2 * 2 ^ 22 + w * 2 ^ 17 + p * 2 ^ 12 + sq))
        ∧ 2 ^ 64 ≤ d2 * 2 ^ 22 + w * 2 ^ 17 + p * 2 ^ 12 + sq := by
  refine ⟨generate_overflow cfg k hp2 hsum delta p1v p2v sv h1 h3 hd, ?_⟩
  intro w p sq d2 hw hp hs hd2
  refine ⟨generate_discord_eval w p sq d2 hw hp hs, ?_⟩
  calc (2 : Nat) ^ 64 = 2 ^ 42 * 2 ^ 22 := by norm_num
  _ ≤ d2 * 2 ^ 22 := Nat.mul_le_mul_right _ hd2
  _ ≤ d2 * 2 ^ 22 + w * 2 ^ 17 + p * 2 ^ 12 + sq := by omega

/-- C9 witness: the overflow theorem applied at `cfgEpoch0` with
delta = 2^42 (one bit too wide for the 42-bit field) and at the Discord
generator with the same delta and fields (1, 2, 3). -/
theorem C9_overflow_witness :
    generate_snowflake cfgEpoch0 0 0 ((2 ^ 42 + cfgEpoch0.epoch : Nat) : Int) (some 0)
        = .error (.assertionError "Binary string length is incorrect.")
    ∧ (generate_discord_snowflake 1 2 3 ((2 ^ 42 + Epoch.discord.value : Nat) : Int)
        = .ok (decDigits (2 ^ 42 * 2 ^ 22 + 1 * 2 ^ 17 + 2 * 2 ^ 12 + 3))
      ∧ 2 ^ 64 ≤ 2 ^ 42 * 2 ^ 22 + 1 * 2 ^ 17 + 2 * 2 ^ 12 + 3) := by
  have h := C9_overflow cfgEpoch0 5 rfl (by norm_num [configSum, cfgEpoch0])
    (2 ^ 42) 0 0 0 (by positivity) (by positivity) (by norm_num [cfgEpoch0])
  exact ⟨h.1, h.2 1 2 3 (2 ^ 42) (by norm_num) (by norm_num) (by norm_num) (le_refl _)⟩

/-- C9 counterexample: with an oversized delta the generic generator raises
the length assertion rather than succeeding with a truncated 64-bit value, so
the truncation claim is false at this input. -/
theorem C9_overflow_counterexample :
    generate_snowflake cfgEpoch0 0 0 ((2 : Int) ^ 42) (some 0)
      = .error (.assertionError "Binary string length is incorrect.") := by
  have h := generate_overflow cfgEpoch0 5 rfl (by norm_num [configSum, cfgEpoch0])
    (2 ^ 42) 0 0 0 (by positivity) (by positivity) (by norm_num [cfgEpoch0])
  have harg : (((2 ^ 42 + cfgEpoch0.epoch : Nat)) : Int) = (2 : Int) ^ 42 := by
    norm_num [cfgEpoch0]
  rwa [harg] at h

/-- C10: a configuration built with `param2_length = None` constructs, but
every `generate_snowflake` call fails (with a TypeError at the `None > 0`
comparison when param2 is absent, and at `zfill(None)` when a param2 value is
supplied and the earlier checks pass), and every `parse_snowflake` call fails
(with a TypeError at the `+ param2_length` addition for every length-valid
input); neither operation can ever return a value. -/
theorem C10_param2_none_unusable (cfg : SnowflakeConfig) (hp2 : cfg.param2_length = none) :
    (∀ (p1 sq t : Int) (p2 : Option Int) (out : List (Fin 10)),
        generate_snowflake cfg p1 sq t p2 ≠ .ok out)
    ∧ (∀ p1 sq t : Int, generate_snowflake cfg p1 sq t none
        = .error (.typeError "comparison not supported between instances of NoneType and int"))
    ∧ (∀ (p1v sv : Nat) (v t : Int), p1v < 10 ^ cfg.param1_length →
        sv < 10 ^ cfg.sequence_length → (cfg.epoch : Int) ≤ t →
        generate_snowflake cfg p1v sv t (some v)
          = .error (.typeError "zfill argument must be an int, not NoneType"))
    ∧ (∀ (s : List (Fin 10)) (out : Parsed), parse_snowflake cfg s ≠ .ok out)
    ∧ (∀ s : List (Fin 10), 17 ≤ s.length → s.length ≤ 19 →
        parse_snowflake cfg s
          = .error (.typeError "unsupported operand types for + : int and NoneType")) := by
  refine ⟨?_, ?_, ?_, ?_, ?_⟩
  · intro p1 sq t p2 out hout
    rcases p2 with _ | v
    · simp only [generate_snowflake, hp2] at hout
      rw [if_pos (by simp)] at hout
      simp at hout
    · simp only [generate_snowflake, hp2] at hout
      rw [if_neg (by simp), if_neg (by simp)] at hout
      split at hout
      · simp at hout
      · split at hout
        · simp at hout
        · split at hout
          · simp at hout
          · rw [if_pos (by simp)] at hout
            simp at hout
  · intro p1 sq t
    simp only [generate_snowflake, hp2]
    rw [if_pos (by simp)]
  · intro p1v sv v t h1 h2 ht
    have hI1 : ((p1v : Nat) : Int) < (10 : Int) ^ cfg.param1_length := by exact_mod_cast h1
    have hI2 : ((sv : Nat) : Int) < (10 : Int) ^ cfg.sequence_length := by exact_mod_cast h2
    simp only [generate_snowflake, hp2]
    rw [if_neg (by simp), if_neg (by simp), if_neg (by simp [hI1]), if_neg (by simp [hI2]),
      if_neg (by omega), if_pos (by simp)]
  · intro s out hout
    simp only [parse_snowflake, hp2] at hout
    split at hout
    · simp at hout
    · simp at hout
  · intro s hl1 hl2
    simp only [parse_snowflake, hp2]
    rw [if_neg (by omega)]

/-- C10 witness: the theorem applied to the concrete `param2_length = None`
configuration, exercising the generate TypeError with and without param2 and
the parse TypeError on a 17-digit input. -/
theorem C10_param2_none_unusable_witness :
    generate_snowflake cfgP2None 0 0 0 none
      = .error (.typeError "comparison not supported between instances of NoneType and int")
    ∧ generate_snowflake cfgP2None 0 0 0 (some 0)
      = .error (.typeError "zfill argument must be an int, not NoneType")
    ∧ parse_snowflake cfgP2None (List.replicate 17 0)
      = .error (.typeError "unsupported operand types for + : int and NoneType") := by
  have h := C10_param2_none_unusable cfgP2None rfl
  exact ⟨h.2.1 0 0 0,
    h.2.2.1 0 0 0 0 (by norm_num [cfgP2None]) (by norm_num [cfgP2None])
      (by norm_num [cfgP2None]),
    h.2.2.2.2 (List.replicate 17 0) (by simp) (by simp)⟩

end SnowflakeUtil
